import Mathlib

/-!
Verification of the `gu` repository's trading core against its specification.

The definitions below are shallow embeddings of the Python source:
* `strategy/one_three_one.py` — the 1-3-1 candlestick reversal strategy
  (`OneThreeOneStrategy.next`);
* `utils/stock_data.py` — `add_transaction` (trading-pool holdings
  bookkeeping) and `get_stock_history` (history retrieval with fallback);
* `utils/risk_engine.py` — `calculate_risk_metrics`;
* `frames/sidebar.py` — `backtrader_selector_ui`.

Python floats are modelled as rationals (the code only adds, multiplies,
divides and compares prices), Python ints as `Int`, dicts as structures,
`None` as `Option.none`, and raising/`(False, msg)` returns as
`Except`/flagged results.
-/

namespace Gu

/-- One OHLCV bar. `open` is a Lean keyword, hence `open_`. -/
structure Bar where
  open_ : ℚ
  high : ℚ
  low : ℚ
  close : ℚ
  volume : ℤ
deriving DecidableEq

instance : Inhabited Bar := ⟨⟨0, 0, 0, 0, 0⟩⟩

/-- The bar at backtrader offset `-k` (0 = current bar) when `bars` is the
list of bars seen so far, most recent last: `self.data.close[-k]` reads
`(barAt bars k).close`. -/
def barAt (bars : List Bar) (k : Nat) : Bar :=
  bars.getD (bars.length - 1 - k) default

/-- Which exit branch of `OneThreeOneStrategy.next` fired (the two
log-distinguished `self.close()` calls). -/
inductive ExitReason where
  | stopLoss
  | takeProfit
deriving DecidableEq

/-- A per-bar decision. The backtrader API offers `buy`, `sell` and
`close`; emitting none of them is `hold`. -/
inductive Decision where
  | hold
  | buy
  | sell
  | close (reason : ExitReason)
deriving DecidableEq

/-- Strategy/broker state visible to `OneThreeOneStrategy.next`:
`self.position` (truthy iff a position is open), `self.order` (truthy iff
an order is pending), and the scratch stop/take-profit levels
(`None` at `__init__`). -/
structure StratState where
  position : Bool
  order : Bool
  stop_loss_price : Option ℚ
  take_profit_price : Option ℚ
deriving DecidableEq

/-- State after `__init__`: no position, `self.order = None`,
`self.stop_loss_price = None`, `self.take_profit_price = None`. -/
def initState : StratState := ⟨false, false, none, none⟩

/-- Python truthiness of an optional float: `None` and `0.0` are falsy. -/
def truthy : Option ℚ → Bool
  | none => false
  | some v => v ≠ 0

/-- Condition `is_red_3`: the bar 3 back is red, `close[-3] < open[-3]`. -/
abbrev is_red_3 (bars : List Bar) : Prop :=
  (barAt bars 3).close < (barAt bars 3).open_

/-- Condition `is_lowest_low`: `low[-3]` is strictly below the lows of bars
`-2`, `-1` and `0`. -/
abbrev is_lowest_low (bars : List Bar) : Prop :=
  (barAt bars 3).low < (barAt bars 2).low ∧
  (barAt bars 3).low < (barAt bars 1).low ∧
  (barAt bars 3).low < (barAt bars 0).low

/-- Condition `red_candle_condition = is_red_3 and is_lowest_low`. -/
abbrev red_candle_condition (bars : List Bar) : Prop :=
  is_red_3 bars ∧ is_lowest_low bars

/-- Condition `green_candles_condition`: bars `-2`, `-1`, `0` are all green. -/
abbrev green_candles_condition (bars : List Bar) : Prop :=
  (barAt bars 2).close > (barAt bars 2).open_ ∧
  (barAt bars 1).close > (barAt bars 1).open_ ∧
  (barAt bars 0).close > (barAt bars 0).open_

/-- Condition `higher_close_condition`: `close[0] > close[-1] > close[-2]`. -/
abbrev higher_close_condition (bars : List Bar) : Prop :=
  (barAt bars 0).close > (barAt bars 1).close ∧
  (barAt bars 1).close > (barAt bars 2).close

/-- Default of the `tp_ratio` parameter: `params = (("tp_ratio", 1.0), ...)`.
(The source's parameter name is `tp_ratio`; here it is `tp_factor`.) -/
def default_tp_factor : ℚ := 1

/-- Function `OneThreeOneStrategy.next`, as a pure function from the parameter
`tp_ratio` (`tp_factor`), the bars seen so far and the visible state to the
emitted decision and updated state.  Mirrors the source line by line:
fewer than 4 bars → plain return (hold); in position → stop-loss branch,
else take-profit branch, each clearing both levels around `self.close()`;
pending order → return; entry conditions → `self.buy()` plus the
stop-loss/take-profit plan. -/
def next (tp_factor : ℚ) (bars : List Bar) (st : StratState) :
    Decision × StratState :=
  if bars.length < 4 then (Decision.hold, st)
  else
    if st.position then
      if truthy st.stop_loss_price ∧
          (barAt bars 0).low ≤ st.stop_loss_price.getD 0 then
        (Decision.close ExitReason.stopLoss,
          { st with stop_loss_price := none, take_profit_price := none })
      else if truthy st.take_profit_price ∧
          (barAt bars 0).high ≥ st.take_profit_price.getD 0 then
        (Decision.close ExitReason.takeProfit,
          { st with stop_loss_price := none, take_profit_price := none })
      else (Decision.hold, st)
    else if st.order then (Decision.hold, st)
    else if red_candle_condition bars ∧ green_candles_condition bars ∧
        higher_close_condition bars then
      let entry_price := (barAt bars 0).close
      let stop_loss := (barAt bars 3).low
      let risk := entry_price - stop_loss
      (Decision.buy,
        { st with order := true,
                  stop_loss_price := some stop_loss,
                  take_profit_price := some (entry_price + risk * tp_factor) })
    else (Decision.hold, st)

/-- Modelled from the spec: the backtest engine's bar-by-bar loop
(`utils/processing.run_backtrader` and `strategy/base.py` are not under
`src/`).  "Per bar in increasing index order: Strategy.on_bar → if
Decision ≠ Hold, Broker.submit"; orders "fill at the same bar's close",
so a `buy` opens the position and consumes the pending order, and a
`close` flattens it, before the next bar. -/
def stepFill (d : Decision) (st : StratState) : StratState :=
  match d with
  | Decision.buy => { st with order := false, position := true }
  | Decision.close _ => { st with position := false }
  | _ => st

/-- Modelled from the spec: the engine loop on a bar series.  `done` is the
bars already fed (most recent last); each remaining bar is appended and the
strategy's `next` is called, its decision recorded and filled. -/
def runAux (tp_factor : ℚ) (done : List Bar) (st : StratState) :
    List Bar → List Decision × StratState
  | [] => ([], st)
  | b :: rest =>
    let fed := done ++ [b]
    let out := next tp_factor fed st
    let res := runAux tp_factor fed (stepFill out.1 out.2) rest
    (out.1 :: res.1, res.2)

/-- Modelled from the spec: one full run of the 1-3-1 strategy over a
series, from the freshly initialised state, returning the per-bar decision
sequence and the final strategy state. -/
def runStrategy (tp_factor : ℚ) (bars : List Bar) :
    List Decision × StratState :=
  runAux tp_factor [] initState bars

/-! ## Trading-pool holdings (`utils/stock_data.add_transaction`) -/

/-- A transaction type: the `trans_type` string, `'buy'` or `'sell'`. -/
inductive TransType where
  | buy
  | sell
deriving DecidableEq

/-- The optional `plan` dict (`stop_loss` / `take_profit` / `expected_buy`
keys), modelled as a string-keyed association list. -/
def Plan : Type := List (String × ℚ)

/-- One recorded transaction.  The source also stores a wall-clock `time`
string (`datetime.now().isoformat()`), which no holdings logic reads; it is
omitted here. -/
structure Transaction where
  ttype : TransType
  price : ℚ
  volume : ℤ
  plan : Option Plan

/-- The `holdings` dict.  A stock whose dict lacks the key is initialised
to `{volume 0, avg_cost 0.0, total_cost 0.0}` before any update, so the
field is modelled as always present with that meaning. -/
structure Holdings where
  volume : ℤ
  avg_cost : ℚ
  total_cost : ℚ
  plan : Option Plan

/-- One entry of the trading pool (`code`, `transactions`, `holdings`;
the remaining keys such as `name` play no part in `add_transaction`). -/
structure StockEntry where
  code : String
  transactions : List Transaction
  holdings : Holdings

/-- The holdings update of `add_transaction`:
buy → `new_vol = vol + volume`, `new_total_cost = cost + price*volume`,
`new_avg_cost = new_total_cost / new_vol if new_vol > 0 else 0.0`;
sell → rejected (`"卖出数量超过持仓量"`) when `volume > current_vol`, else
`new_vol = vol - volume`,
`new_total_cost = cost * (new_vol / current_vol) if current_vol > 0 else 0.0`,
avg cost kept `if new_vol > 0 else 0.0`. -/
def update_holdings (h : Holdings) (ttype : TransType) (price : ℚ)
    (volume : ℤ) : Except String Holdings :=
  match ttype with
  | TransType.buy =>
    let new_vol := h.volume + volume
    let new_total_cost := h.total_cost + price * (volume : ℚ)
    let new_avg_cost := if 0 < new_vol then new_total_cost / (new_vol : ℚ) else 0
    Except.ok { h with volume := new_vol, total_cost := new_total_cost,
                       avg_cost := new_avg_cost }
  | TransType.sell =>
    if h.volume < volume then Except.error "卖出数量超过持仓量"
    else
      let new_vol := h.volume - volume
      let new_total_cost :=
        if 0 < h.volume then h.total_cost * ((new_vol : ℚ) / (h.volume : ℚ))
        else 0
      Except.ok { h with volume := new_vol, total_cost := new_total_cost,
                         avg_cost := if 0 < new_vol then h.avg_cost else 0 }

/-- Replace the first entry satisfying `p` (the one `next(...)` found);
Python mutates that dict in place inside the loaded pool. -/
def updateFirst (p : StockEntry → Bool) (new : StockEntry) :
    List StockEntry → List StockEntry
  | [] => []
  | s :: rest => if p s then new :: rest else s :: updateFirst p new rest

/-- Function `add_transaction(code, trans_type, price, volume, plan)` over an
explicit pool (the JSON file contents).  Returns the pool as stored on
disk afterwards plus the `(ok, message)` pair: both rejection paths
(`"股票不在交易池中"`, oversized sell) return before `save_trading_pool`,
so they leave the stored pool untouched.  On success the transaction is
appended, the holdings updated, and on a buy with a plan the plan saved. -/
def add_transaction (pool : List StockEntry) (code : String)
    (ttype : TransType) (price : ℚ) (volume : ℤ) (plan : Option Plan) :
    List StockEntry × Bool × String :=
  match pool.find? (fun s => s.code == code) with
  | none => (pool, false, "股票不在交易池中")
  | some stock =>
    let stock1 : StockEntry :=
      { stock with transactions :=
          stock.transactions ++ [⟨ttype, price, volume, plan⟩] }
    match update_holdings stock1.holdings ttype price volume with
    | Except.error msg => (pool, false, msg)
    | Except.ok h2 =>
      let h3 := if ttype = TransType.buy then
          (match plan with
           | some pl => { h2 with plan := some pl }
           | none => h2)
        else h2
      (updateFirst (fun s => s.code == code) { stock1 with holdings := h3 } pool,
       true, "交易已记录")

/-- A transaction request as issued by the UI: target stock plus the
arguments of `add_transaction`. -/
structure TransReq where
  code : String
  ttype : TransType
  price : ℚ
  volume : ℤ
  plan : Option Plan

/-- The stored pool after a sequence of `add_transaction` calls. -/
def runTransactions (pool : List StockEntry) (ts : List TransReq) :
    List StockEntry :=
  ts.foldl (fun p t => (add_transaction p t.code t.ttype t.price t.volume t.plan).1)
    pool

/-! ## Sidebar run configuration (`frames/sidebar.backtrader_selector_ui`) -/

/-- The run-configuration fields of `BacktraderParams` that the number
inputs produce (`start_date`/`end_date` come from date pickers and are not
part of the range claims). -/
structure BacktraderParams where
  start_cash : ℚ
  commission_fee : ℚ
  stake : ℚ
deriving DecidableEq

/-- A `st.number_input` with a `min_value` and optional `max_value`: the
widget never yields a value outside the given bounds, whatever the user
tries to enter.  Modelled as clamping the attempted value. -/
def number_input (min_value : ℚ) (max_value : Option ℚ) (value : ℚ) : ℚ :=
  match max_value with
  | some m => max min_value (min m value)
  | none => max min_value value

/-- Function `backtrader_selector_ui`, applied to the values the user attempts to
enter: `start_cash` has `min_value=0`, `commission_fee` has `min_value=0.0,
max_value=1.0`, `stake` has `min_value=0`. -/
def backtrader_selector_ui (cash_in comm_in stake_in : ℚ) :
    BacktraderParams :=
  { start_cash := number_input 0 none cash_in
    commission_fee := number_input 0 (some 1) comm_in
    stake := number_input 0 none stake_in }

/-! ## Risk metrics (`utils/risk_engine.calculate_risk_metrics`) -/

/-- The dict returned by `calculate_risk_metrics` when it is non-empty.
(`rr` is the source's `rr_ratio` key.) -/
structure RiskMetrics where
  position_value : ℚ
  risk_per_share : ℚ
  total_risk : ℚ
  risk_pct : ℚ
  reward_per_share : ℚ
  total_reward : ℚ
  reward_pct : ℚ
  rr : ℚ
  warnings : List String
deriving DecidableEq

/-- Function `calculate_risk_metrics(entry_price, stop_loss, take_profit, quantity)`:
returns the empty dict (`none`) for `quantity <= 0 or entry_price <= 0`,
otherwise the metrics, with `rr_ratio` guarded by `risk_per_share > 0`. -/
def calculate_risk_metrics (entry_price stop_loss take_profit : ℚ)
    (quantity : ℤ) : Option RiskMetrics :=
  if quantity ≤ 0 ∨ entry_price ≤ 0 then none
  else
    let position_value := entry_price * (quantity : ℚ)
    let risk_per_share := entry_price - stop_loss
    let total_risk := risk_per_share * (quantity : ℚ)
    let risk_pct := risk_per_share / entry_price * 100
    let reward_per_share := take_profit - entry_price
    let total_reward := reward_per_share * (quantity : ℚ)
    let reward_pct := reward_per_share / entry_price * 100
    let rr := if 0 < risk_per_share then reward_per_share / risk_per_share else 0
    let warnings :=
      (if stop_loss ≥ entry_price then ["止损价必须低于买入价"] else []) ++
      (if take_profit ≤ entry_price then ["止盈价必须高于买入价"] else [])
    some ⟨position_value, risk_per_share, total_risk, risk_pct,
          reward_per_share, total_reward, reward_pct, rr, warnings⟩

/-! ## History retrieval (`utils/stock_data.get_stock_history`) -/

/-- A row of the history dataframe after the typed renaming
(`date, open, close, high, low, volume`). -/
structure HistRow where
  date : String
  open_ : ℚ
  close : ℚ
  high : ℚ
  low : ℚ
  volume : ℚ

/-- A dataframe of history rows. -/
def DataFrame : Type := List HistRow

instance : EmptyCollection DataFrame := ⟨([] : List HistRow)⟩

/-- Predicate `df.empty`. -/
def DataFrame.isEmpty (df : DataFrame) : Bool := List.isEmpty df

/-- The column renaming / `to_datetime` / `set_index` post-processing of
the standard-history path.  On the typed rows this reshaping changes no
row data. -/
def processHist (df : DataFrame) : DataFrame := df

/-- The fallback path's post-processing (`pd.to_numeric(..., coerce)` on
already-numeric typed columns, then index): no row data changes. -/
def processDaily (df : DataFrame) : DataFrame := df

/-- The exchange marker built for `stock_zh_a_daily`:
`"sh"` for codes starting `6`, `"sz"` for `0`/`3`, else `""` (falsy). -/
def marketTag (code : String) : String :=
  if code.startsWith "6" then "sh"
  else if code.startsWith "0" ∨ code.startsWith "3" then "sz"
  else ""

/-- Function `get_stock_history(code, period)`, with the two upstream fetches made
explicit: `hist` is the outcome of `ak.stock_zh_a_hist` (raising modelled
as `Except.error`) and `daily` the outcome of `ak.stock_zh_a_daily`.
Path 1: if the standard fetch succeeds with a non-empty frame, return it
processed.  Otherwise, only for `period == "daily"` and a non-empty
exchange marker, try the fallback likewise.  Every remaining path returns
the empty `pd.DataFrame()`. -/
def get_stock_history (code : String) (period : String)
    (hist : Except String DataFrame) (daily : Except String DataFrame) :
    DataFrame :=
  let fallback : DataFrame :=
    if period = "daily" then
      if marketTag code ≠ "" then
        match daily with
        | Except.ok df => if df.isEmpty then (∅ : DataFrame) else processDaily df
        | Except.error _ => (∅ : DataFrame)
      else (∅ : DataFrame)
    else (∅ : DataFrame)
  match hist with
  | Except.ok df => if df.isEmpty then fallback else processHist df
  | Except.error _ => fallback

/-! ## Concrete series used in the claims -/

/-- The crafted 5-bar series of the spec's 1-3-1 test property: bar 0 is
irrelevant, bar 1 is bearish with low 90, bars 2–4 are bullish with closes
101 < 102 < 103 (and lows above 90). -/
def craftedBars : List Bar :=
  [⟨100, 101, 95, 99, 0⟩, ⟨100, 101, 90, 95, 0⟩, ⟨100, 102, 99, 101, 0⟩,
   ⟨101, 103, 100, 102, 0⟩, ⟨102, 104, 101, 103, 0⟩]

/-- Series `craftedBars` with the current bar's low also 90: the bar-3-back low
ties the minimum instead of being strictly lowest. -/
def tieBars : List Bar :=
  [⟨100, 101, 95, 99, 0⟩, ⟨100, 101, 90, 95, 0⟩, ⟨100, 102, 99, 101, 0⟩,
   ⟨101, 103, 100, 102, 0⟩, ⟨102, 104, 90, 103, 0⟩]

/-- The low condition as the claim words it: the bar-3-back low is the
minimum low among it and the following three bars (ties included). -/
abbrev claimed_lowest_low (bars : List Bar) : Prop :=
  (barAt bars 3).low =
    min (barAt bars 3).low
      (min (barAt bars 2).low (min (barAt bars 1).low (barAt bars 0).low))

/-! ## Theorems -/

/-- C1 (counterexample): on `tieBars`, every condition of the claim holds
— at least 4 bars, no position, no pending order, the bar 3 back is
bearish and its low is the minimum low among it and the following three
bars, and the three most recent bars are bullish with strictly increasing
closes — yet `next` emits Hold, not Buy: the claim's "if and only if"
fails because the code demands a strictly lowest low. -/
theorem next_claimed_entry_cex :
    (4 ≤ tieBars.length ∧ initState.position = false ∧
      initState.order = false ∧ is_red_3 tieBars ∧
      claimed_lowest_low tieBars ∧ green_candles_condition tieBars ∧
      higher_close_condition tieBars) ∧
    (next 1 tieBars initState).1 = Decision.hold := by
  decide

/-- C1 (amended): `next` emits Buy iff at least 4 bars exist, no position
is open, no order is pending, the bar 3 back is bearish with its low
strictly below the lows of the following three bars, and the three most
recent bars are bullish with strictly increasing closes. -/
theorem next_buy_iff (r : ℚ) (bars : List Bar) (st : StratState) :
    (next r bars st).1 = Decision.buy ↔
      (4 ≤ bars.length ∧ st.position = false ∧ st.order = false ∧
        red_candle_condition bars ∧ green_candles_condition bars ∧
        higher_close_condition bars) := by
  unfold next
  split_ifs with h1 h2 h3 h4 h5 h6
  all_goals simp_all
  all_goals first
  | omega
  | assumption

/-- C2: while a position is open (with positive stop-loss and take-profit
levels set), the bar is handled exit-first: low ≤ stop-loss emits the
stop-loss Close (clearing both levels), only otherwise does high ≥
take-profit emit the take-profit Close; when both trigger on one bar the
stop-loss exit is taken; and no Buy is ever emitted on such a bar. -/
theorem next_exit_checks (r : ℚ) (bars : List Bar) (st : StratState)
    (s t : ℚ) (hp : st.position = true) (hs : st.stop_loss_price = some s)
    (ht : st.take_profit_price = some t) (hs0 : 0 < s) (ht0 : 0 < t)
    (hlen : 4 ≤ bars.length) :
    ((barAt bars 0).low ≤ s →
      next r bars st = (Decision.close ExitReason.stopLoss,
        { st with stop_loss_price := none, take_profit_price := none })) ∧
    (¬ (barAt bars 0).low ≤ s → t ≤ (barAt bars 0).high →
      next r bars st = (Decision.close ExitReason.takeProfit,
        { st with stop_loss_price := none, take_profit_price := none })) ∧
    ((barAt bars 0).low ≤ s → t ≤ (barAt bars 0).high →
      (next r bars st).1 = Decision.close ExitReason.stopLoss) ∧
    (next r bars st).1 ≠ Decision.buy := by
  have hs' : s ≠ 0 := ne_of_gt hs0
  have ht' : t ≠ 0 := ne_of_gt ht0
  unfold next
  simp only [hp, hs, ht, truthy, if_true]
  constructor
  · intro hlow
    simp_all
  · constructor
    · intro hlow hhigh
      simp_all
      rw [if_neg (by omega : ¬ bars.length < 4), if_neg (not_le.mpr hlow)]
    · constructor
      · intro hlow _
        simp_all
        rw [if_neg (by omega : ¬ bars.length < 4)]
      · split_ifs <;> simp_all

/-- C2 (witness): a concrete in-position bar where both the stop-loss (90)
and the take-profit (110) trigger; the stop-loss Close is taken. -/
theorem next_exit_checks_witness :
    next 1 [⟨100, 101, 95, 99, 0⟩, ⟨100, 101, 91, 95, 0⟩,
            ⟨100, 102, 99, 101, 0⟩, ⟨101, 120, 85, 102, 0⟩]
        ⟨true, false, some 90, some 110⟩ =
      (Decision.close ExitReason.stopLoss, ⟨true, false, none, none⟩) :=
  (next_exit_checks 1
      [⟨100, 101, 95, 99, 0⟩, ⟨100, 101, 91, 95, 0⟩,
       ⟨100, 102, 99, 101, 0⟩, ⟨101, 120, 85, 102, 0⟩]
      ⟨true, false, some 90, some 110⟩ 90 110 rfl rfl rfl (by norm_num)
      (by norm_num) (by decide)).1 (by decide)

/-- C6: if a position is open or an order is pending, `next` issues no new
Buy, and the pending-order flag is left as it was (no second concurrent
order is created). -/
theorem next_no_entry_in_market (r : ℚ) (bars : List Bar)
    (st : StratState) (h : st.position = true ∨ st.order = true) :
    (next r bars st).1 ≠ Decision.buy ∧
    (next r bars st).2.order = st.order := by
  unfold next
  split_ifs with h1 h2 h3 h4 h5 h6 <;> simp_all

/-- C6 (witness): with an order pending on a series that satisfies every
entry condition, no Buy is issued and the flag is unchanged. -/
theorem next_no_entry_in_market_witness :
    (next 1 craftedBars ⟨false, true, none, none⟩).1 ≠ Decision.buy ∧
    (next 1 craftedBars ⟨false, true, none, none⟩).2.order = true :=
  next_no_entry_in_market 1 craftedBars ⟨false, true, none, none⟩
    (Or.inr rfl)

/-- C4: the simulated run is a deterministic function of its inputs — two
runs on identical parameter and bar series produce identical decision
sequences and final states (the embedded loop is pure: no randomness, no
wall clock). -/
theorem runStrategy_deterministic (r₁ r₂ : ℚ) (bars₁ bars₂ : List Bar)
    (hr : r₁ = r₂) (hb : bars₁ = bars₂) :
    runStrategy r₁ bars₁ = runStrategy r₂ bars₂ := by
  subst hr
  subst hb
  rfl

/-- C4 (witness): two identical runs on the crafted series coincide. -/
theorem runStrategy_deterministic_witness :
    runStrategy 1 craftedBars = runStrategy 1 craftedBars :=
  runStrategy_deterministic 1 1 craftedBars craftedBars rfl rfl

/-- C3: on entry, the stored stop-loss is the bar-3-back low and the
take-profit is entry price plus risk times the ratio (the entry price
being the current close), the ratio defaulting to 1; on the crafted
5-bar series the entry fires at index 4 with stop-loss 90 and take-profit
103 + (103 - 90) times the ratio. -/
theorem next_entry_levels :
    (∀ (r : ℚ) (bars : List Bar) (st : StratState),
        (next r bars st).1 = Decision.buy →
        (next r bars st).2.stop_loss_price = some (barAt bars 3).low ∧
        (next r bars st).2.take_profit_price =
          some ((barAt bars 0).close +
            ((barAt bars 0).close - (barAt bars 3).low) * r)) ∧
    default_tp_factor = 1 ∧
    (∀ r : ℚ,
        (runStrategy r craftedBars).1 =
          [Decision.hold, Decision.hold, Decision.hold, Decision.hold,
            Decision.buy] ∧
        (runStrategy r craftedBars).2.stop_loss_price = some 90 ∧
        (runStrategy r craftedBars).2.take_profit_price =
          some (103 + (103 - 90) * r)) := by
  refine ⟨?_, rfl, ?_⟩
  · intro r bars st h
    unfold next at h ⊢
    split_ifs at h ⊢
    all_goals simp_all
  · intro r
    constructor
    · norm_num [runStrategy, runAux, next, stepFill, initState, craftedBars,
        barAt, red_candle_condition, is_red_3, is_lowest_low,
        green_candles_condition, higher_close_condition]
    · refine ⟨?_, ?_⟩ <;>
        norm_num [runStrategy, runAux, next, stepFill, initState, craftedBars,
          barAt, red_candle_condition, is_red_3, is_lowest_low,
          green_candles_condition, higher_close_condition]

/-- C3 (witness): the entry on `craftedBars` (where `next` does emit Buy)
records stop-loss 90 and take-profit 103 + (103 - 90) * 1. -/
theorem next_entry_levels_witness :
    (next 1 craftedBars initState).2.stop_loss_price =
      some (barAt craftedBars 3).low ∧
    (next 1 craftedBars initState).2.take_profit_price =
      some ((barAt craftedBars 0).close +
        ((barAt craftedBars 0).close - (barAt craftedBars 3).low) * 1) :=
  next_entry_levels.1 1 craftedBars initState (by decide)

/-- Membership after replacing the first match: every element of the
result is the replacement or an original element. -/
theorem mem_updateFirst {p : StockEntry → Bool} {new s : StockEntry} :
    ∀ {l : List StockEntry}, s ∈ updateFirst p new l → s = new ∨ s ∈ l := by
  intro l
  induction l with
  | nil => intro h; exact absurd h (List.not_mem_nil s)
  | cons a rest ih =>
    intro h
    unfold updateFirst at h
    split_ifs at h
    · rcases List.mem_cons.mp h with h' | h'
      · exact Or.inl h'
      · exact Or.inr (List.mem_cons_of_mem a h')
    · rcases List.mem_cons.mp h with h' | h'
      · exact Or.inr (h' ▸ List.mem_cons_self a rest)
      · rcases ih h' with h2 | h2
        · exact Or.inl h2
        · exact Or.inr (List.mem_cons_of_mem a h2)

/-- One `add_transaction` call with a non-negative volume keeps every
stored holdings volume non-negative. -/
theorem add_transaction_nonneg (pool : List StockEntry) (code : String)
    (ttype : TransType) (price : ℚ) (v : ℤ) (pl : Option Plan)
    (hpool : ∀ s ∈ pool, 0 ≤ s.holdings.volume) (hv : 0 ≤ v) :
    ∀ s ∈ (add_transaction pool code ttype price v pl).1,
      0 ≤ s.holdings.volume := by
  unfold add_transaction
  cases hfind : pool.find? (fun s => s.code == code) with
  | none => simpa using hpool
  | some stock =>
    have hstock : stock ∈ pool := List.mem_of_find?_eq_some hfind
    have hsvol : 0 ≤ stock.holdings.volume := hpool stock hstock
    cases ttype with
    | buy =>
      simp only [update_holdings]
      intro s hs
      rcases mem_updateFirst hs with h | h
      · subst h
        cases pl <;> split_ifs <;> dsimp <;> omega
      · exact hpool s h
    | sell =>
      simp only [update_holdings]
      by_cases hover : stock.holdings.volume < v
      · rw [if_pos hover]
        exact hpool
      · rw [if_neg hover]
        dsimp only
        intro s hs
        rcases mem_updateFirst hs with h | h
        · subst h
          rw [if_neg (by decide : ¬ (TransType.sell = TransType.buy))]
          dsimp only
          omega
        · exact hpool s h

/-- C5: the 1-3-1 strategy never emits a Sell (long-only entries and
closes); a recorded sell whose volume exceeds the holdings volume is
rejected with an error, the stored pool unchanged; hence any sequence of
recorded buy/sell transactions with non-negative volumes keeps every
stored holdings volume non-negative. -/
theorem position_size_nonneg :
    (∀ (r : ℚ) (bars : List Bar) (st : StratState),
        (next r bars st).1 ≠ Decision.sell) ∧
    (∀ (pool : List StockEntry) (code : String) (p : ℚ) (v : ℤ)
        (pl : Option Plan) (stock : StockEntry),
        pool.find? (fun s => s.code == code) = some stock →
        stock.holdings.volume < v →
        add_transaction pool code TransType.sell p v pl =
          (pool, false, "卖出数量超过持仓量")) ∧
    (∀ (pool : List StockEntry) (ts : List TransReq),
        (∀ t ∈ ts, 0 ≤ t.volume) →
        (∀ s ∈ pool, 0 ≤ s.holdings.volume) →
        ∀ s ∈ runTransactions pool ts, 0 ≤ s.holdings.volume) := by
  refine ⟨?_, ?_, ?_⟩
  · intro r bars st
    unfold next
    split_ifs <;> simp
  · intro pool code p v pl stock hfind hover
    unfold add_transaction
    rw [hfind]
    simp only [update_holdings]
    rw [if_pos hover]
  · intro pool ts
    induction ts generalizing pool with
    | nil =>
      intro _ hpool
      simpa [runTransactions] using hpool
    | cons t rest ih =>
      intro hts hpool
      have h1 := add_transaction_nonneg pool t.code t.ttype t.price t.volume
        t.plan hpool (hts t (List.mem_cons_self t rest))
      have h2 := ih ((add_transaction pool t.code t.ttype t.price t.volume t.plan).1)
        (fun u hu => hts u (List.mem_cons_of_mem t hu)) h1
      simpa [runTransactions] using h2

/-- C5 (witness): no Sell on the crafted entry bar, and a concrete
buy-then-sell sequence keeps the stored volume non-negative. -/
theorem position_size_nonneg_witness :
    (next 1 craftedBars initState).1 ≠ Decision.sell ∧
    (∀ s ∈ runTransactions
        [⟨"600519", [], ⟨0, 0, 0, none⟩⟩]
        [⟨"600519", TransType.buy, 10, 100, none⟩,
         ⟨"600519", TransType.sell, 12, 100, none⟩],
      0 ≤ s.holdings.volume) :=
  ⟨position_size_nonneg.1 1 craftedBars initState,
   position_size_nonneg.2.2
     [⟨"600519", [], ⟨0, 0, 0, none⟩⟩]
     [⟨"600519", TransType.buy, 10, 100, none⟩,
      ⟨"600519", TransType.sell, 12, 100, none⟩]
     (by decide) (by decide)⟩

/-- C7: an accepted buy adds `price * volume` to the total cost, adds the
volume, and recomputes the average cost as the new total over the new
volume; a partial sell keeps the average cost and scales the total cost by
the remaining fraction of the volume; a full close zeroes volume, total
cost and average cost. -/
theorem update_holdings_weighted_avg (h : Holdings) (p : ℚ) (v : ℤ) :
    (0 ≤ h.volume → 0 < v →
      ∃ h2, update_holdings h TransType.buy p v = Except.ok h2 ∧
        h2.volume = h.volume + v ∧
        h2.total_cost = h.total_cost + p * (v : ℚ) ∧
        h2.avg_cost = h2.total_cost / (h2.volume : ℚ)) ∧
    (0 < v → v < h.volume →
      ∃ h2, update_holdings h TransType.sell p v = Except.ok h2 ∧
        h2.avg_cost = h.avg_cost ∧
        h2.volume = h.volume - v ∧
        h2.total_cost =
          h.total_cost * (((h.volume - v : ℤ) : ℚ) / (h.volume : ℚ))) ∧
    (0 < h.volume →
      ∃ h2, update_holdings h TransType.sell p h.volume = Except.ok h2 ∧
        h2.volume = 0 ∧ h2.total_cost = 0 ∧ h2.avg_cost = 0) := by
  refine ⟨?_, ?_, ?_⟩
  · intro h0 hv
    unfold update_holdings
    refine ⟨_, rfl, rfl, rfl, ?_⟩
    dsimp only
    rw [if_pos (by omega : (0:ℤ) < h.volume + v)]
  · intro hv hlt
    unfold update_holdings
    rw [if_neg (by omega : ¬ h.volume < v)]
    refine ⟨_, rfl, ?_, rfl, ?_⟩
    · dsimp only
      rw [if_pos (by omega : (0:ℤ) < h.volume - v)]
    · dsimp only
      rw [if_pos (by omega : (0:ℤ) < h.volume)]
  · intro h0
    unfold update_holdings
    rw [if_neg (lt_irrefl h.volume)]
    refine ⟨_, rfl, by dsimp only; omega, ?_, ?_⟩
    · dsimp only
      rw [if_pos h0]
      norm_num
    · dsimp only
      rw [if_neg (by omega : ¬ (0:ℤ) < h.volume - h.volume)]

/-- C7 (witness): buying 100 at 10 onto holdings (50 shares, total cost
400) gives volume 150, total cost 1400, average cost 1400/150; selling 50
of 150 keeps the average and scales the total; selling all 150 zeroes
everything. -/
theorem update_holdings_weighted_avg_witness :
    (∃ h2, update_holdings ⟨50, 8, 400, none⟩ TransType.buy 10 100 =
        Except.ok h2 ∧
      h2.volume = 150 ∧ h2.total_cost = 1400 ∧
      h2.avg_cost = h2.total_cost / (h2.volume : ℚ)) ∧
    (∃ h2, update_holdings ⟨150, 8, 1200, none⟩ TransType.sell 9 50 =
        Except.ok h2 ∧
      h2.avg_cost = 8 ∧ h2.volume = 100 ∧
      h2.total_cost = 1200 * (((100 : ℤ) : ℚ) / (150 : ℚ))) ∧
    (∃ h2, update_holdings ⟨150, 8, 1200, none⟩ TransType.sell 9 150 =
        Except.ok h2 ∧ h2.volume = 0 ∧ h2.total_cost = 0 ∧
      h2.avg_cost = 0) := by
  refine ⟨?_, ?_, ?_⟩
  · obtain ⟨h2, he, hv, ht, ha⟩ :=
      (update_holdings_weighted_avg ⟨50, 8, 400, none⟩ 10 100).1
        (by norm_num) (by norm_num)
    exact ⟨h2, he, by rw [hv]; norm_num, by rw [ht]; norm_num, ha⟩
  · obtain ⟨h2, he, ha, hv, ht⟩ :=
      (update_holdings_weighted_avg ⟨150, 8, 1200, none⟩ 9 50).2.1
        (by norm_num) (by norm_num)
    exact ⟨h2, he, ha, by rw [hv]; norm_num, by rw [ht]; norm_num⟩
  · obtain ⟨h2, he, hv, ht, ha⟩ :=
      (update_holdings_weighted_avg ⟨150, 8, 1200, none⟩ 9 150).2.2
        (by norm_num)
    exact ⟨h2, he, hv, ht, ha⟩

/-- C8 (counterexample): the stake number input has `min_value=0`, so the
selector accepts a zero stake — the produced configuration violates the
claimed strict positivity of stake at the concrete attempt (cash 100000,
commission 0.001, stake 0). -/
theorem backtrader_selector_stake_cex :
    (backtrader_selector_ui 100000 (1/1000) 0).stake = 0 ∧
    ¬ 0 < (backtrader_selector_ui 100000 (1/1000) 0).stake := by
  decide

/-- C8 (amended): every configuration the backtrader sidebar selector
produces satisfies start_cash ≥ 0, commission within 0.0–1.0, and
stake ≥ 0 (the selector does not enforce a strictly positive stake). -/
theorem backtrader_selector_ranges (cash_in comm_in stake_in : ℚ) :
    0 ≤ (backtrader_selector_ui cash_in comm_in stake_in).start_cash ∧
    0 ≤ (backtrader_selector_ui cash_in comm_in stake_in).commission_fee ∧
    (backtrader_selector_ui cash_in comm_in stake_in).commission_fee ≤ 1 ∧
    0 ≤ (backtrader_selector_ui cash_in comm_in stake_in).stake := by
  unfold backtrader_selector_ui number_input
  refine ⟨le_max_left 0 cash_in, le_max_left 0 (min 1 comm_in), ?_,
    le_max_left 0 stake_in⟩
  exact max_le (by norm_num) (min_le_left 1 comm_in)

/-- C9: when both upstream fetches raise, `get_stock_history` returns the
empty dataframe rather than propagating the error, for every symbol and
period. -/
theorem get_stock_history_all_fail (code period e₁ e₂ : String) :
    get_stock_history code period (Except.error e₁) (Except.error e₂) =
      (∅ : DataFrame) := by
  unfold get_stock_history
  split_ifs <;> rfl

/-- C10: `calculate_risk_metrics` is total and never divides by zero — a
non-positive quantity or entry price yields the empty result, and
otherwise the percentage metrics divide only by the (positive) entry
price while the risk/reward ratio is the quotient only when the risk per
share is positive, and 0 otherwise. -/
theorem calculate_risk_metrics_safe (entry_price stop_loss take_profit : ℚ)
    (quantity : ℤ) :
    ((quantity ≤ 0 ∨ entry_price ≤ 0) →
      calculate_risk_metrics entry_price stop_loss take_profit quantity =
        none) ∧
    (0 < quantity → 0 < entry_price →
      ∃ m, calculate_risk_metrics entry_price stop_loss take_profit
          quantity = some m ∧
        m.risk_pct = (entry_price - stop_loss) / entry_price * 100 ∧
        m.reward_pct = (take_profit - entry_price) / entry_price * 100 ∧
        m.rr = (if 0 < entry_price - stop_loss then
            (take_profit - entry_price) / (entry_price - stop_loss)
          else 0)) := by
  constructor
  · intro hne
    unfold calculate_risk_metrics
    rw [if_pos hne]
  · intro hq he
    unfold calculate_risk_metrics
    rw [if_neg (by push_neg; exact ⟨hq, he⟩)]
    exact ⟨_, rfl, rfl, rfl, rfl⟩

/-- C10 (witness): quantity 0 yields the empty dict; entry 100, stop 90,
target 120, quantity 10 yields risk 10%, reward 20%, ratio 2. -/
theorem calculate_risk_metrics_safe_witness :
    calculate_risk_metrics 100 90 120 0 = none ∧
    ∃ m, calculate_risk_metrics 100 90 120 10 = some m ∧
      m.risk_pct = (100 - 90) / 100 * 100 ∧
      m.reward_pct = (120 - 100) / 100 * 100 ∧
      m.rr = (if (0:ℚ) < 100 - 90 then (120 - 100) / (100 - 90) else 0) :=
  ⟨(calculate_risk_metrics_safe 100 90 120 0).1 (Or.inl le_rfl),
   (calculate_risk_metrics_safe 100 90 120 10).2 (by norm_num) (by norm_num)⟩

end Gu



